import Mathlib

/-!
Verification development for the schedule/replacements site (`site.py`).

This file shallowly embeds the schedule-replacement merge engine of the
source program and proves the frozen claims about it:

* Python dicts are modelled as insertion-ordered association lists whose
  lookup returns the value of the last insertion for a key (`pyDictGet`),
  since Python dict insertion overwrites.
* Python strings are Lean `String`s; the string operations used by the
  source (`strip`, `split('/')`, `replace`, substring containment, the two
  regular expressions) are implemented over `List Char` so that they are
  kernel-evaluable.  `strip` is modelled on the ASCII whitespace set.
* Schedule entries are Python dicts with a known key set; they are
  modelled as a structure whose optional fields are `Option`-valued
  (a `none` field models an absent key, matching the source's `dict.get`
  with defaults).  The `lesson` key is accessed unconditionally by the
  source (`pair['lesson']`), so it is a required field.
* `datetime` values are modelled with `Int` ordinals/timestamps; the
  calendar arithmetic (`toordinal`, `isocalendar`) is translated from
  CPython's pure-Python `datetime` implementation, which is what the
  source calls.
* Network fetching (`httpx` + BeautifulSoup) is modelled at the parsed
  page boundary: an upstream source yields either an exception message or
  a page with an optional announcement-date text and an optional table of
  rows of cell texts.  All code after that boundary is translated from
  the source.
-/

/-! ### Python string primitives -/

/-- Python ASCII whitespace (the characters `str.strip` removes, restricted
to ASCII, which is all this data contains). -/
def isPySpace (c : Char) : Bool :=
  c == ' ' || c == '\t' || c == '\n' || c == '\r' || c == '\x0b' || c == '\x0c'

def pyStripL (cs : List Char) : List Char :=
  ((cs.dropWhile isPySpace).reverse.dropWhile isPySpace).reverse

/-- Python `str.strip()`. -/
def pyStrip (s : String) : String := String.mk (pyStripL s.data)

/-- If `pat` is a prefix of the input, return the remaining suffix. -/
def dropPrefixL : List Char → List Char → Option (List Char)
  | [], rest => some rest
  | _ :: _, [] => none
  | p :: ps, c :: cs => if c = p then dropPrefixL ps cs else none

/-- Python `str.replace(pat, repl)` for a nonempty pattern `p0 :: ps`:
replace non-overlapping occurrences left to right.  The `fuel` argument
only makes the recursion structural (each step consumes at least one input
character, so `fuel = input length` never runs out). -/
def pyReplaceFuel (p0 : Char) (ps repl : List Char) : Nat → List Char → List Char
  | 0, s => s
  | _ + 1, [] => []
  | fuel + 1, c :: rest =>
    if c = p0 then
      match dropPrefixL ps rest with
      | some after => repl ++ pyReplaceFuel p0 ps repl fuel after
      | none => c :: pyReplaceFuel p0 ps repl fuel rest
    else c :: pyReplaceFuel p0 ps repl fuel rest

def pyReplaceL (p0 : Char) (ps repl s : List Char) : List Char :=
  pyReplaceFuel p0 ps repl s.length s

/-- Python `str.replace`.  With an empty pattern Python inserts the
replacement at every character boundary. -/
def pyReplace (s pat repl : String) : String :=
  match pat.data with
  | [] => String.mk (repl.data ++ s.data.foldr (fun c acc => c :: (repl.data ++ acc)) [])
  | p :: ps => String.mk (pyReplaceL p ps repl.data s.data)

/-- Python `pat in s` (substring containment). -/
def listInfixOf (pat : List Char) : List Char → Bool
  | [] => pat.isEmpty
  | c :: rest => (dropPrefixL pat (c :: rest)).isSome || listInfixOf pat rest

def pyIn (pat s : String) : Bool := listInfixOf pat.data s.data

/-- Python `str.split('/')` (the only separator the source splits on). -/
def splitSlashL : List Char → List (List Char)
  | [] => [[]]
  | c :: rest =>
    if c = '/' then [] :: splitSlashL rest
    else
      match splitSlashL rest with
      | [] => [[c]]
      | h :: t => (c :: h) :: t

def pySplitSlash (s : String) : List String := (splitSlashL s.data).map String.mk

/-! ### Python dict, modelled as an insertion-ordered association list -/

/-- Python `dict.get`: the value written by the **last** insertion for the
key (insertion into a dict overwrites earlier values for the same key). -/
def pyDictGet {κ α : Type} [DecidableEq κ] (l : List (κ × α)) (k : κ) : Option α :=
  (l.reverse.find? (fun e => decide (e.1 = k))).map (fun e => e.2)

theorem pyDictGet_append {κ α : Type} [DecidableEq κ] (l₁ l₂ : List (κ × α)) (k : κ) :
    pyDictGet (l₁ ++ l₂) k = (pyDictGet l₂ k).or (pyDictGet l₁ k) := by
  simp only [pyDictGet, List.reverse_append, List.find?_append]
  cases List.find? (fun e => decide (e.1 = k)) l₂.reverse <;> simp [Option.or]

theorem pyDictGet_nil {κ α : Type} [DecidableEq κ] (k : κ) :
    pyDictGet ([] : List (κ × α)) k = none := rfl

/-! ### Data model -/

/-- One lesson entry, as a Python dict with the key set used by the source.
A `none` field models an absent key. -/
structure Pair where
  pair_num : Option String := none
  type : Option String := none
  lesson : String
  classroom : Option String := none
  teacher : Option String := none
  group : Option String := none
  is_replacement : Option Bool := none
  is_cancellation : Option Bool := none
  old_lesson : Option String := none
  old_classroom : Option String := none
deriving DecidableEq, Repr

/-- One scraped replacement row: a dict with the six header keys
`№, Группа, Номер_пары, Дисциплина_по_расписанию, Дисциплина_по_замене,
Аудитория` (fields here in that order, with Latin names). -/
structure Replacement where
  num : String
  group : String
  pair_num : String
  sched_lesson : String
  repl_lesson : String
  classroom : String
deriving DecidableEq, Repr

def REPLACEMENTS_HEADERS : List String :=
  ["№", "Группа", "Номер_пары", "Дисциплина_по_расписанию",
   "Дисциплина_по_замене", "Аудитория"]

/-- The fixed cancellation marker substring checked by the merge. -/
def CANCEL_MARKER : String := "❌ (Отмена/Перенос)"

/-! ### `get_teacher_from_lesson` -/

/-- Scan for `\)` before a newline (the regex uses `.` which does not match
newlines); returns the group-1 content of the first closing parenthesis. -/
def takeToClose : List Char → Option (List Char)
  | [] => none
  | ')' :: _ => some []
  | '\n' :: _ => none
  | c :: rest => (takeToClose rest).map (fun l => c :: l)

/-- `re.search(r'\((.*?)\)', s)`: the content of the leftmost, shortest
parenthesised group. -/
def findParenGroup : List Char → Option (List Char)
  | [] => none
  | '(' :: rest =>
    match takeToClose rest with
    | some content => some content
    | none => findParenGroup rest
  | _ :: rest => findParenGroup rest

/-- `get_teacher_from_lesson` (site.py:155): extracts the teacher from the
first parenthesised group of the lesson text, removing every occurrence of
that group from the lesson. -/
def get_teacher_from_lesson (lesson_name : String) : String × String :=
  match findParenGroup lesson_name.data with
  | some content =>
    let teacher_display := pyStrip (String.mk content)
    let lesson_display := pyStrip (pyReplace lesson_name ("(" ++ String.mk content ++ ")") "")
    (lesson_display, teacher_display)
  | none => (pyStrip lesson_name, "Не указан")

/-! ### `get_day_schedule` -/

/-- Python `int(s)` on a stripped decimal string (optional sign, digits).
The source only applies it to the numeric `pair_num` values of the schedule
file; a malformed value would raise `ValueError` in the source, and the
embedding (which is total) maps that error case to `none`. -/
def pyIntOpt (s : String) : Option Int :=
  let cs := pyStripL s.data
  let core : List Char → Option Int := fun ds =>
    if ds.isEmpty || !ds.all Char.isDigit then none
    else some (ds.foldl (fun acc c => acc * 10 + ((c.toNat : Int) - 48)) 0)
  match cs with
  | '-' :: rest => (core rest).map (fun n => -n)
  | '+' :: rest => core rest
  | _ => core cs

/-- Sort key `int(x.get('pair_num', 0))` (site.py:187). -/
def day_sort_key (p : Pair) : Int :=
  match p.pair_num with
  | none => 0
  | some s => (pyIntOpt s).getD 0

/-- Insert `a` before the first element whose key is not smaller.  Used to
model Python `sorted(l, key=k)`: `sorted` is a *stable* sort by the key,
and every stable sort computes the same list, so it is modelled by stable
insertion sort (structurally recursive, hence kernel-evaluable). -/
def stableInsert {α : Type} (key : α → Int) (a : α) : List α → List α
  | [] => [a]
  | b :: l => if key a ≤ key b then a :: b :: l else b :: stableInsert key a l

/-- Python `sorted(l, key=k)`. -/
def pySorted {α : Type} (key : α → Int) (l : List α) : List α :=
  l.foldr (stableInsert key) []

/-- The week-type filter of `get_day_schedule` (site.py:172-175). -/
def day_pair_is_current (week_type : Bool) (p : Pair) : Bool :=
  let pair_type := p.type.getD "Еженедельно"
  pair_type == "Еженедельно" || (pair_type == "Четная" && week_type)
    || (pair_type == "Нечетная" && !week_type)

/-- The per-pair transformation of `get_day_schedule` (site.py:177-186):
copy, set `is_replacement := False`, remember the raw lesson/classroom in
`old_lesson`/`old_classroom`, then split the teacher out of the lesson. -/
def process_day_pair (p : Pair) : Pair :=
  let np : Pair :=
    { p with is_replacement := some false, old_lesson := some p.lesson,
             old_classroom := some (p.classroom.getD "Не указана") }
  let lt := get_teacher_from_lesson np.lesson
  { np with lesson := lt.1,
            teacher := some (if lt.2 ≠ "Не указан" then lt.2 else np.teacher.getD "Не указан") }

/-- Nested dict: entity name → weekday name → list of pairs. -/
def ScheduleData : Type := List (String × List (String × List Pair))

/-- `get_day_schedule` (site.py:165-187). -/
def get_day_schedule (schedule_data : ScheduleData) (group_name day_name : String)
    (week_type : Bool) : List Pair :=
  match pyDictGet schedule_data group_name with
  | none => []
  | some group_sched =>
    let day_schedule := (pyDictGet group_sched day_name).getD []
    let filtered_pairs :=
      (day_schedule.filter
        (fun p => day_pair_is_current week_type p && p.lesson != "(Нет пары)")).map
        process_day_pair
    pySorted day_sort_key filtered_pairs

/-! ### `apply_replacements_to_schedule` -/

/-- `str(pair.get('pair_num'))` (site.py:205): an absent key renders as the
string `"None"`. -/
def pairNumStr (p : Pair) : String :=
  match p.pair_num with
  | some s => s
  | none => "None"

/-- The dict entries one replacement row contributes (site.py:197-202): one
entry per `/`-separated group token, skipped entirely when the row's pair
number or group text is empty (Python falsiness of `''`). -/
def replacementEntries (r : Replacement) : List ((String × String) × Replacement) :=
  if r.pair_num ≠ "" ∧ r.group ≠ "" then
    (pySplitSlash r.group).map (fun g => ((pyStrip g, r.pair_num), r))
  else []

def build_replacements_dict (all_replacements : List Replacement) :
    List ((String × String) × Replacement) :=
  all_replacements.foldl (fun d r => d ++ replacementEntries r) []

/-- The mutation performed on a base pair when a replacement row is found
for it (site.py:211-220). -/
def apply_replacement_hit (p : Pair) (replacement : Replacement) : Pair :=
  let new_lesson_raw := replacement.repl_lesson
  let new_classroom := replacement.classroom
  let lt := get_teacher_from_lesson new_lesson_raw
  let is_canc := pyIn CANCEL_MARKER new_lesson_raw
  { p with lesson := lt.1, classroom := some new_classroom,
           teacher := some (if lt.2 ≠ "Не указан" then lt.2 else p.teacher.getD "Не указан"),
           is_replacement := some true, is_cancellation := some is_canc }

/-- The candidate group tokens for a base pair (site.py:206): the entity
name split on `/` for a group entity, the pair's own group for a teacher. -/
def user_groups_of (entity_name : String) (is_teacher : Bool) (p : Pair) : List String :=
  if !is_teacher then (pySplitSlash entity_name).map pyStrip
  else [p.group.getD "???"]

/-- The candidate-group loop of site.py:208-221: try each candidate group
in order, apply the first indexed row found, `break`. -/
def lookup_and_apply (d : List ((String × String) × Replacement)) (p : Pair) :
    List String → Pair
  | [] => p
  | g :: rest =>
    match pyDictGet d (g, pairNumStr p) with
    | some r => apply_replacement_hit p r
    | none => lookup_and_apply d p rest

/-- `apply_replacements_to_schedule` (site.py:190-223). -/
def apply_replacements_to_schedule (base_schedule : List Pair)
    (all_replacements : List Replacement) (entity_name : String) (is_teacher : Bool) :
    List Pair :=
  if all_replacements.isEmpty then base_schedule
  else
    let d := build_replacements_dict all_replacements
    base_schedule.map (fun p => lookup_and_apply d p (user_groups_of entity_name is_teacher p))

/-! ### `format_schedule_to_kwgt_text` -/

def DEFAULT_SCHEDULE_FORMAT : String := "%NUM% %LESSON% (%ROOM%)"

/-- Overwrite the value of key `k` in an insertion-ordered dict, keeping
its position (Python dict update of an existing key). -/
def updAssoc (l : List (String × String)) (k v : String) : List (String × String) :=
  l.map (fun e => if e.1 = k then (k, v) else e)

/-- The placeholder dict built at site.py:295-300, in insertion order. -/
def kwgt_base_reps (p : Pair) : List (String × String) :=
  [("%NUM%", p.pair_num.getD "?"), ("%TEACHER%", p.teacher.getD "Н/У"), ("%BR%", "\n"),
   ("%LESSON%", p.lesson), ("%ROOM%", p.classroom.getD "Н/У"),
   ("%OLD_ROOM%", p.old_classroom.getD "Н/У"), ("%STATUS%", "")]

/-- The placeholder dict after the cancellation/replacement branch
(site.py:303-310): on a cancellation the `%LESSON%`/`%ROOM%` slots are
overwritten with the *original* `old_lesson`/`old_classroom` values. -/
def kwgt_final_reps (p : Pair) : List (String × String) :=
  if p.is_cancellation.getD false then
    updAssoc (updAssoc (updAssoc (kwgt_base_reps p) "%STATUS%" "ОТМЕНА")
      "%LESSON%" (p.old_lesson.getD "???")) "%ROOM%" (p.old_classroom.getD "Н/У")
  else if p.is_replacement.getD false then
    updAssoc (kwgt_base_reps p) "%STATUS%" "ЗАМЕНА"
  else kwgt_base_reps p

/-- The colour wrapping of the format string (site.py:307, 310). -/
def kwgt_wrap (p : Pair) (custom_format : String) : String :=
  if p.is_cancellation.getD false then "[c=e74c3c]🚫 " ++ custom_format ++ "[/c]"
  else if p.is_replacement.getD false then "[c=f39c12]🔄 " ++ custom_format ++ "[/c]"
  else custom_format

/-- One line of the KWGT output (the body of the loop at site.py:291-321). -/
def format_pair_line (custom_format : String) (p : Pair) : String :=
  let line := (kwgt_final_reps p).foldl (fun acc kv => pyReplace acc kv.1 kv.2)
    (kwgt_wrap p custom_format)
  let line := pyStrip (pyReplace line "[]" "")
  pyReplace (pyReplace line "%OLD_ROOM%" "") "%STATUS%" ""

/-- `format_schedule_to_kwgt_text` (site.py:285-324); `today_dm` stands for
`datetime.date.today().strftime('%d.%m')`. -/
def format_schedule_to_kwgt_text (schedule : List Pair) (week_type custom_format today_dm : String) :
    String :=
  if schedule.isEmpty then
    "[c=d35400]Неделя: " ++ week_type ++ "[/c] [c=3498db]| " ++ today_dm
      ++ "[/c]\n\n🎉 Пар/занятий нет."
  else
    "[c=d35400]Неделя: " ++ week_type ++ "[/c] [c=3498db]| " ++ today_dm ++ "[/c]\n"
      ++ String.intercalate "\n" (schedule.map (format_pair_line custom_format))

/-! ### Calendar arithmetic (CPython `datetime.date`) -/

/-- A `datetime.date` value. -/
structure Date where
  year : Int
  month : Int
  day : Int
deriving DecidableEq, Repr

/-- CPython `_is_leap`. -/
def isLeap (y : Int) : Bool := y % 4 == 0 && (y % 100 != 0 || y % 400 == 0)

/-- CPython `_days_before_year` (`//` is floor division; `Int./` is
euclidean division, which agrees with floor division for these positive
divisors). -/
def days_before_year (y : Int) : Int :=
  let yy := y - 1
  yy * 365 + yy / 4 - yy / 100 + yy / 400

/-- CPython `_days_in_month`. -/
def days_in_month (y m : Int) : Int :=
  if m = 2 then (if isLeap y then 29 else 28)
  else if m = 4 ∨ m = 6 ∨ m = 9 ∨ m = 11 then 30
  else 31

/-- CPython `_days_before_month` (the cumulative table plus the leap-day
adjustment for months after February). -/
def days_before_month (y m : Int) : Int :=
  (if m = 1 then 0 else if m = 2 then 31 else if m = 3 then 59 else if m = 4 then 90
   else if m = 5 then 120 else if m = 6 then 151 else if m = 7 then 181
   else if m = 8 then 212 else if m = 9 then 243 else if m = 10 then 273
   else if m = 11 then 304 else 334)
  + (if 2 < m ∧ isLeap y then 1 else 0)

/-- CPython `_ymd2ord`: proleptic-Gregorian ordinal, day 1 = 0001-01-01. -/
def ymd2ord (y m d : Int) : Int := days_before_year y + days_before_month y m + d

def date_ord (dt : Date) : Int := ymd2ord dt.year dt.month dt.day

/-- CPython `date.weekday()`: Monday = 0. -/
def date_weekday (dt : Date) : Int := (date_ord dt + 6) % 7

/-- A structurally valid `datetime.date` (the constructor's range checks). -/
def isValidDate (dt : Date) : Prop :=
  1 ≤ dt.year ∧ dt.year ≤ 9999 ∧ 1 ≤ dt.month ∧ dt.month ≤ 12
    ∧ 1 ≤ dt.day ∧ dt.day ≤ days_in_month dt.year dt.month

instance (dt : Date) : Decidable (isValidDate dt) := by
  unfold isValidDate; infer_instance

/-- CPython `_isoweek1monday`: ordinal of the Monday starting ISO week 1. -/
def isoweek1monday (year : Int) : Int :=
  let firstday := ymd2ord year 1 1
  let firstweekday := (firstday + 6) % 7
  let week1monday := firstday - firstweekday
  if 3 < firstweekday then week1monday + 7 else week1monday

/-- CPython `date.isocalendar()`: `(iso year, iso week, iso weekday)`.
`divmod(_, 7)` is floor division, which for the positive divisor 7 agrees
with `Int./`. -/
def date_isocalendar (dt : Date) : Int × Int × Int :=
  let year := dt.year
  let week1monday := isoweek1monday year
  let today := date_ord dt
  let week := (today - week1monday) / 7
  let day := (today - week1monday) % 7
  if week < 0 then
    let wm := isoweek1monday (year - 1)
    (year - 1, (today - wm) / 7 + 1, (today - wm) % 7 + 1)
  else if 52 ≤ week then
    if isoweek1monday (year + 1) ≤ today then (year + 1, 1, day + 1)
    else (year, week + 1, day + 1)
  else (year, week + 1, day + 1)

/-- `get_week_type` (site.py:145-147): `date.today().isocalendar()[1] % 2 == 0`,
with `today` made an explicit argument of the pure embedding. -/
def get_week_type (today : Date) : Bool := (date_isocalendar today).2.1 % 2 == 0

/-- `get_week_type_display` (site.py:150-152). -/
def get_week_type_display (week_type : Bool) : String :=
  if week_type then "числитель" else "знаменатель"

/-- The ISO-8601 week number as the spec words it: week 1 of an ISO year is
the week containing January 4 (equivalently, the first Thursday); a date's
week number counts weeks from the Monday of week 1 of its ISO year, which
is the year `y` with `week1monday y ≤ d < week1monday (y+1)`.  This
definition is written from the spec's words, independently of CPython's
`isocalendar` control flow, to compare the two. -/
def isoWeek1MondaySpec (y : Int) : Int :=
  ymd2ord y 1 4 - (ymd2ord y 1 4 + 6) % 7

def isoWeekNumber (dt : Date) : Int :=
  let o := date_ord dt
  let y := dt.year
  if o < isoWeek1MondaySpec y then (o - isoWeek1MondaySpec (y - 1)) / 7 + 1
  else if isoWeek1MondaySpec (y + 1) ≤ o then (o - isoWeek1MondaySpec (y + 1)) / 7 + 1
  else (o - isoWeek1MondaySpec y) / 7 + 1

/-! ### `parse_russian_date` -/

def MONTH_NAMES : List (String × Int) :=
  [("января", 1), ("февраля", 2), ("марта", 3), ("апреля", 4), ("мая", 5), ("июня", 6),
   ("июля", 7), ("августа", 8), ("сентября", 9), ("октября", 10), ("ноября", 11),
   ("декабря", 12)]

/-- Match one alternative of the month-name alternation (no name is a
prefix of another, so first-prefix match is exact). -/
def matchMonth (cs : List Char) : Option (Int × List Char) :=
  MONTH_NAMES.findSome? (fun nm =>
    match dropPrefixL nm.1.data cs with
    | some rest => some (nm.2, rest)
    | none => none)

def digitVal (c : Char) : Int := (c.toNat : Int) - 48

/-- The pattern tail after the day group: a space, a month name, a space,
exactly four digits, then `" года"`. -/
def matchRuTail (day : Int) (cs : List Char) : Option (Int × Int × Int) :=
  match cs with
  | ' ' :: cs1 =>
    match matchMonth cs1 with
    | some (m, cs2) =>
      match cs2 with
      | ' ' :: y1 :: y2 :: y3 :: y4 :: cs3 =>
        if y1.isDigit && y2.isDigit && y3.isDigit && y4.isDigit then
          match dropPrefixL " года".data cs3 with
          | some _ =>
            some (day, m, 1000 * digitVal y1 + 100 * digitVal y2 + 10 * digitVal y3 + digitVal y4)
          | none => none
        else none
      | _ => none
    | none => none
  | _ => none

/-- Try the whole pattern at one position: `на `, then a greedy one-or-two
digit day (two digits tried first, with backtracking), then the tail. -/
def matchRuDateAt (cs : List Char) : Option (Int × Int × Int) :=
  match dropPrefixL "на ".data cs with
  | none => none
  | some r1 =>
    match r1 with
    | d1 :: rest1 =>
      if d1.isDigit then
        match rest1 with
        | d2 :: rest2 =>
          if d2.isDigit then
            (matchRuTail (10 * digitVal d1 + digitVal d2) rest2).or
              (matchRuTail (digitVal d1) rest1)
          else matchRuTail (digitVal d1) rest1
        | [] => none
      else none
    | [] => none

/-- `re.search`: scan start positions left to right. -/
def searchRuDate : List Char → Option (Int × Int × Int)
  | [] => none
  | c :: rest => (matchRuDateAt (c :: rest)).or (searchRuDate rest)

/-- `parse_russian_date` (site.py:78-91): regex match, month-name lookup,
then `datetime.date(...)` whose `ValueError` (day/year out of range) is
mapped to `None`. -/
def parse_russian_date (date_string : String) : Option Date :=
  match searchRuDate date_string.data with
  | none => none
  | some (d, m, y) =>
    if isValidDate ⟨y, m, d⟩ then some ⟨y, m, d⟩ else none

/-! ### `fetch_replacements_data` -/

def COOLDOWN_MINUTES : Int := 30

/-- `datetime.timedelta(minutes=COOLDOWN_MINUTES)`; timestamps and
durations are modelled in seconds. -/
def cooldown_delta : Int := COOLDOWN_MINUTES * 60

/-- The replacements cache (`REPLACEMENTS_CACHE`, site.py:46-49). -/
structure Cache where
  replacements : List Replacement
  date_info : String
  date_object : Option Date
  last_fetch_time : Int
  errors : List String
deriving DecidableEq, Repr

/-- One upstream page after BeautifulSoup parsing: the text of the first
tag containing "изменения" (if any), and the rows of the first table (if
any) as lists of `td` cell texts. -/
structure Page where
  date_tag_text : Option String
  table : Option (List (List String))
deriving DecidableEq, Repr

/-- Outcome of one upstream HTTP GET: a parsed page, or the message of the
exception raised (network error or `raise_for_status`). -/
inductive FetchResult where
  | ok : Page → FetchResult
  | err : String → FetchResult
deriving DecidableEq, Repr

def source_shift (i : Nat) : String := toString (i + 1) ++ "-ая смена"

/-- Build one replacement row from exactly six cell texts
(site.py:129-130): `dict(zip(REPLACEMENTS_HEADERS, stripped cells))`. -/
def mk_row (row : List String) : Replacement :=
  { num := pyStrip (row.getD 0 ""), group := pyStrip (row.getD 1 ""),
    pair_num := pyStrip (row.getD 2 ""), sched_lesson := pyStrip (row.getD 3 ""),
    repl_lesson := pyStrip (row.getD 4 ""), classroom := pyStrip (row.getD 5 "") }

/-- The row loop (site.py:126-131): keep exactly the rows whose cell count
equals the header count. -/
def extract_table_rows (table : List (List String)) : List Replacement :=
  table.foldl (fun acc row =>
    if row.length == REPLACEMENTS_HEADERS.length then acc ++ [mk_row row] else acc) []

/-- Accumulator of the refresh loop (site.py:101-104). -/
structure RefreshAcc where
  all_replacements_data : List Replacement
  primary_date_info : String
  primary_date_object : Option Date
  fetch_errors : List String
deriving DecidableEq, Repr

def initRefreshAcc : RefreshAcc :=
  { all_replacements_data := [], primary_date_info := "Дата не указана",
    primary_date_object := none, fetch_errors := [] }

/-- The body of the per-source loop (site.py:107-133) for source index `i`. -/
def process_source (acc : RefreshAcc) (i : Nat) (res : FetchResult) : RefreshAcc :=
  match res with
  | .err e =>
    { acc with fetch_errors :=
        acc.fetch_errors ++ ["❌ Ошибка при запросе к " ++ source_shift i ++ ": " ++ e] }
  | .ok page =>
    let date_info_text :=
      match page.date_tag_text with
      | some t => pyStrip t
      | none => "Дата не указана"
    match page.table with
    | none =>
      { acc with fetch_errors :=
          acc.fetch_errors ++ ["❌ " ++ source_shift i ++ ": Таблица замен не найдена."] }
    | some table =>
      let acc :=
        if i = 0 then
          { acc with primary_date_info := date_info_text,
                     primary_date_object := parse_russian_date date_info_text }
        else acc
      { acc with all_replacements_data :=
          acc.all_replacements_data ++ extract_table_rows table }

/-- `fetch_replacements_data` (site.py:94-142) as a state transition.
`now_check` is the `datetime.now()` of the cooldown check (line 96) and
`now_done` the `datetime.now()` stored after the refresh (line 137); `r0`
and `r1` are the outcomes of the two upstream requests.  The returned
`Bool` records whether an upstream fetch was performed. -/
def fetch_replacements_data (cache : Cache) (force_update : Bool)
    (now_check now_done : Int) (r0 r1 : FetchResult) : Cache × Bool :=
  let time_since_last_fetch := now_check - cache.last_fetch_time
  if force_update = false ∧ time_since_last_fetch < cooldown_delta then (cache, false)
  else
    let acc := process_source (process_source initRefreshAcc 0 r0) 1 r1
    ({ replacements := acc.all_replacements_data, date_info := acc.primary_date_info,
       date_object := acc.primary_date_object, last_fetch_time := now_done,
       errors := acc.fetch_errors }, true)

/-! ### `get_merged_daily_schedule` -/

def DAY_NAMES : List String :=
  ["Понедельник", "Вторник", "Среда", "Четверг", "Пятница", "Суббота", "Воскресенье"]

def padNat (w : Nat) (n : Nat) : String :=
  let s := toString n
  String.mk (List.replicate (w - s.length) '0') ++ s

/-- `date.isoformat()`. -/
def date_isoformat (dt : Date) : String :=
  padNat 4 dt.year.toNat ++ "-" ++ padNat 2 dt.month.toNat ++ "-" ++ padNat 2 dt.day.toNat

/-- The key of `MERGED_SCHEDULE_CACHE` (site.py:229). -/
def merged_cache_key (target_date : Date) (is_teacher : Bool) (entity_name : String) : String :=
  date_isoformat target_date ++ ":" ++ (if is_teacher then "teacher" else "group")
    ++ ":" ++ entity_name

/-- `get_merged_daily_schedule` (site.py:226-244), with its environment
made explicit: the memo cache, the two schedule stores, the replacements
snapshot returned by `fetch_replacements_data` (line 239), and `today`
(used by `get_week_type`).  Returns the result and the updated memo
cache. -/
def get_merged_daily_schedule (mcache : List (String × List Pair))
    (schedule teachers_schedule : ScheduleData) (snapshot : Cache) (target_date : Date)
    (entity_name : String) (is_teacher : Bool) (today : Date) :
    List Pair × List (String × List Pair) :=
  let cache_key := merged_cache_key target_date is_teacher entity_name
  match pyDictGet mcache cache_key with
  | some cached => (cached, mcache)
  | none =>
    let day_name := DAY_NAMES.getD (date_weekday target_date).toNat ""
    let week_type := get_week_type today
    let schedule_source := if is_teacher then teachers_schedule else schedule
    let base_schedule := get_day_schedule schedule_source entity_name day_name week_type
    let current_replacements :=
      if snapshot.date_object = some target_date then snapshot.replacements else []
    let merged_schedule :=
      apply_replacements_to_schedule base_schedule current_replacements entity_name is_teacher
    (merged_schedule, mcache ++ [(cache_key, merged_schedule)])

/-! ### Interleaving model of concurrent `fetch_replacements_data` calls

The source is an `async` function: between the cooldown check
(site.py:96-98, which reads `REPLACEMENTS_CACHE['last_fetch_time']`) and
the cache update (site.py:135-139, which writes it), the coroutine awaits
the two HTTP requests, so other tasks run.  There is no lock or in-flight
future.  A task is therefore either not started, past the check and
fetching (in flight), or done; the steps below are exactly the two atomic
segments of the source separated by the awaits. -/

inductive TaskPhase where
  | ready
  | fetching
  | finished (performed_fetch : Bool)
deriving DecidableEq, Repr

structure RaceState where
  last_fetch_time : Int
  taskA : TaskPhase
  taskB : TaskPhase
  upstream_fetch_pairs : Nat
deriving DecidableEq, Repr

inductive TaskId where
  | A
  | B
deriving DecidableEq, Repr

def getPhase (s : RaceState) : TaskId → TaskPhase
  | .A => s.taskA
  | .B => s.taskB

def setPhase (s : RaceState) (t : TaskId) (p : TaskPhase) : RaceState :=
  match t with
  | .A => { s with taskA := p }
  | .B => { s with taskB := p }

/-- The cooldown-check segment (site.py:96-98) of a `force_update=False`
call, run atomically by task `t` at time `now`. -/
def stepCheck (t : TaskId) (now : Int) (s : RaceState) : Option RaceState :=
  match getPhase s t with
  | .ready =>
    if now - s.last_fetch_time < cooldown_delta then
      some (setPhase s t (.finished false))
    else
      some (setPhase s t .fetching)
  | _ => none

/-- The fetch-and-update segment (site.py:100-142), run by task `t`
finishing at time `now`: performs the pair of upstream requests and writes
`last_fetch_time`. -/
def stepFetch (t : TaskId) (now : Int) (s : RaceState) : Option RaceState :=
  match getPhase s t with
  | .fetching =>
    some { setPhase s t (.finished true) with
           last_fetch_time := now,
           upstream_fetch_pairs := s.upstream_fetch_pairs + 1 }
  | _ => none

/-! ### Concrete sample data used by witnesses and counterexamples -/

def ex_raw_pair : Pair :=
  { pair_num := some "1", type := some "Еженедельно", lesson := "Math (Smith)",
    classroom := some "101" }

def ex_sched : ScheduleData := [("G1", [("Понедельник", [ex_raw_pair])])]

def c1_base_pair : Pair :=
  { pair_num := some "1", lesson := "Math", classroom := some "101", teacher := some "Smith",
    is_replacement := some false, old_lesson := some "Math (Smith)",
    old_classroom := some "101" }

def c1_cancel_row : Replacement :=
  { num := "1", group := "G1", pair_num := "1", sched_lesson := "Math",
    repl_lesson := "❌ (Отмена/Перенос) Физика", classroom := "204" }

def ex_snapshot : Cache :=
  { replacements := [c1_cancel_row], date_info := "Изменения в расписании на 5 ноября 2025 года",
    date_object := some ⟨2025, 11, 5⟩, last_fetch_time := 0, errors := [] }

def race_s0 : RaceState :=
  { last_fetch_time := 0, taskA := .ready, taskB := .ready, upstream_fetch_pairs := 0 }

def race_s1 : RaceState := { race_s0 with taskA := .fetching }

def race_s2 : RaceState := { race_s1 with taskB := .fetching }

def race_s3 : RaceState :=
  { race_s2 with
    taskA := .finished true,
    last_fetch_time := 1000002,
    upstream_fetch_pairs := 1 }

def race_s4 : RaceState :=
  { race_s3 with
    taskB := .finished true,
    last_fetch_time := 1000003,
    upstream_fetch_pairs := 2 }

/-- Does row `r` put an index entry under key `(g, n)` (site.py:197-202)? -/
def row_names_key (r : Replacement) (g n : String) : Bool :=
  decide (r.pair_num ≠ "" ∧ r.group ≠ ""
    ∧ ∃ tok ∈ pySplitSlash r.group, pyStrip tok = g ∧ r.pair_num = n)

/-! ### Association-list (Python dict) lemmas -/

theorem pyDictGet_singleton {κ α : Type} [DecidableEq κ] (a : κ) (v : α) (k : κ) :
    pyDictGet [(a, v)] k = if a = k then some v else none := by
  by_cases h : a = k <;> simp [pyDictGet, List.find?_cons, h]

theorem pyDictGet_cons {κ α : Type} [DecidableEq κ] (e : κ × α) (l : List (κ × α)) (k : κ) :
    pyDictGet (e :: l) k = (pyDictGet l k).or (pyDictGet [e] k) := by
  have : e :: l = [e] ++ l := rfl
  rw [this, pyDictGet_append]

theorem pyDictGet_map_const {β κ α : Type} [DecidableEq κ] (f : β → κ) (v : α)
    (l : List β) (k : κ) :
    pyDictGet (l.map (fun b => (f b, v))) k
      = if l.any (fun b => decide (f b = k)) then some v else none := by
  induction l with
  | nil => rfl
  | cons b l ih =>
    rw [List.map_cons, pyDictGet_cons, ih, pyDictGet_singleton]
    by_cases hb : f b = k <;> by_cases hl : l.any (fun b => decide (f b = k)) = true <;>
      simp [hb, hl, Option.or]

theorem replacementEntries_lookup (r : Replacement) (g n : String) :
    pyDictGet (replacementEntries r) (g, n)
      = if row_names_key r g n then some r else none := by
  unfold replacementEntries row_names_key
  split
  case isTrue hok =>
    rw [pyDictGet_map_const (fun tok => (pyStrip tok, r.pair_num)) r]
    by_cases hany : (pySplitSlash r.group).any
        (fun tok => decide ((pyStrip tok, r.pair_num) = (g, n))) = true
    · rw [if_pos hany, if_pos]
      rw [decide_eq_true_eq]
      refine ⟨hok.1, hok.2, ?_⟩
      rcases List.any_eq_true.mp hany with ⟨tok, htok, hpr⟩
      rw [decide_eq_true_eq, Prod.mk.injEq] at hpr
      exact ⟨tok, htok, hpr.1, hpr.2⟩
    · rw [if_neg hany, if_neg]
      rw [decide_eq_true_eq]
      rintro ⟨-, -, tok, htok, hg, hn⟩
      exact hany (List.any_eq_true.mpr ⟨tok, htok, by simp [hg, hn]⟩)
  case isFalse hok =>
    rw [pyDictGet_nil, if_neg]
    rw [decide_eq_true_eq]
    rintro ⟨h1, h2, -⟩
    exact hok ⟨h1, h2⟩

theorem build_dict_fold (rows : List Replacement) (d : List ((String × String) × Replacement)) :
    rows.foldl (fun d r => d ++ replacementEntries r) d = d ++ build_replacements_dict rows := by
  induction rows generalizing d with
  | nil => simp [build_replacements_dict]
  | cons r rows ih =>
    show rows.foldl _ (d ++ replacementEntries r) = _
    rw [ih]
    have : build_replacements_dict (r :: rows)
        = replacementEntries r ++ build_replacements_dict rows := by
      show rows.foldl _ ([] ++ replacementEntries r) = _
      rw [List.nil_append, ih]
    rw [this, List.append_assoc]

/-- The index built at site.py:195-202 maps a key to the **last** row (in
iteration order) that names it: dict insertion overwrites. -/
theorem build_dict_lookup (rows : List Replacement) (g n : String) :
    pyDictGet (build_replacements_dict rows) (g, n)
      = rows.reverse.find? (fun r => row_names_key r g n) := by
  induction rows with
  | nil => rfl
  | cons r rows ih =>
    have hb : build_replacements_dict (r :: rows)
        = replacementEntries r ++ build_replacements_dict rows := by
      show rows.foldl _ ([] ++ replacementEntries r) = _
      rw [List.nil_append, build_dict_fold]
    rw [hb, pyDictGet_append, ih, replacementEntries_lookup, List.reverse_cons,
      List.find?_append]
    by_cases h : row_names_key r g n <;>
      cases hf : rows.reverse.find? (fun r => row_names_key r g n) <;>
        simp [h, List.find?_cons, Option.or]

/-- The lookup loop at site.py:208-221 applies the row of the **first**
candidate group that has an index entry, and ignores the rest. -/
theorem lookup_and_apply_eq_findSome (d : List ((String × String) × Replacement))
    (p : Pair) (gs : List String) :
    lookup_and_apply d p gs
      = match gs.findSome? (fun g => pyDictGet d (g, pairNumStr p)) with
        | some r => apply_replacement_hit p r
        | none => p := by
  induction gs with
  | nil => rfl
  | cons g rest ih =>
    rw [List.findSome?_cons]
    show (match pyDictGet d (g, pairNumStr p) with
          | some r => apply_replacement_hit p r
          | none => lookup_and_apply d p rest) = _
    cases pyDictGet d (g, pairNumStr p) <;> simp [ih]

theorem apply_replacements_getElem (base : List Pair) (rows : List Replacement)
    (entity_name : String) (is_teacher : Bool) (i : Nat) (p : Pair)
    (hrows : rows ≠ []) (hp : base[i]? = some p) :
    (apply_replacements_to_schedule base rows entity_name is_teacher)[i]?
      = some (lookup_and_apply (build_replacements_dict rows) p
          (user_groups_of entity_name is_teacher p)) := by
  unfold apply_replacements_to_schedule
  have hne : rows.isEmpty = false := by
    cases rows with
    | nil => exact absurd rfl hrows
    | cons a l => rfl
  rw [hne]
  show (List.map _ base)[i]? = _
  rw [List.getElem?_map, hp]
  rfl

/-! ### `split('/')` lemmas -/

theorem string_mk_data (s : String) : String.mk s.data = s := by
  cases s
  rfl

theorem mem_stableInsert {α : Type} (key : α → Int) (a x : α) (l : List α) :
    x ∈ stableInsert key a l ↔ x = a ∨ x ∈ l := by
  induction l with
  | nil => simp [stableInsert]
  | cons b l ih =>
    rw [stableInsert]
    split
    · simp
    · simp only [List.mem_cons, ih]
      tauto

theorem mem_pySorted {α : Type} (key : α → Int) (x : α) (l : List α) :
    x ∈ pySorted key l ↔ x ∈ l := by
  induction l with
  | nil => simp [pySorted]
  | cons b l ih =>
    show x ∈ stableInsert key b (pySorted key l) ↔ _
    rw [mem_stableInsert, ih]
    simp

theorem splitSlashL_no_slash (cs : List Char) (h : ∀ c ∈ cs, c ≠ '/') :
    splitSlashL cs = [cs] := by
  induction cs with
  | nil => rfl
  | cons c rest ih =>
    have hc : ¬ c = '/' := h c (by simp)
    rw [splitSlashL, if_neg hc, ih (fun x hx => h x (by simp [hx]))]

theorem splitSlashL_append (a b : List Char) (ha : ∀ c ∈ a, c ≠ '/') :
    splitSlashL (a ++ '/' :: b) = a :: splitSlashL b := by
  induction a with
  | nil =>
    show splitSlashL ('/' :: b) = [] :: splitSlashL b
    rw [splitSlashL, if_pos rfl]
  | cons c a ih =>
    have hc : ¬ c = '/' := ha c (by simp)
    show splitSlashL (c :: (a ++ '/' :: b)) = _
    rw [splitSlashL, if_neg hc, ih (fun x hx => ha x (by simp [hx]))]

theorem pySplitSlash_pair (A B : String) (hA : ∀ c ∈ A.data, c ≠ '/')
    (hB : ∀ c ∈ B.data, c ≠ '/') :
    pySplitSlash (A ++ "/" ++ B) = [A, B] := by
  unfold pySplitSlash
  have hdata : (A ++ "/" ++ B).data = A.data ++ '/' :: B.data := by
    rw [String.data_append, String.data_append]
    have h1 : ("/" : String).data = ['/'] := rfl
    rw [h1, List.append_assoc]
    rfl
  rw [hdata, splitSlashL_append A.data B.data hA, splitSlashL_no_slash B.data hB]
  simp [string_mk_data]

/-! ### Claim theorems -/

/-- Claim C3: merging any base day schedule (as produced by
`get_day_schedule`) with an empty replacement list is the identity —
`apply_replacements_to_schedule(base, [], entity, is_teacher)` returns
`base` itself (site.py:193) — and every element of such a base schedule
carries `is_replacement = False` (site.py:178). -/
theorem claim_C3 (schedule_data : ScheduleData) (group_name day_name : String)
    (week_type : Bool) (entity_name : String) (is_teacher : Bool) :
    apply_replacements_to_schedule (get_day_schedule schedule_data group_name day_name week_type)
        [] entity_name is_teacher
      = get_day_schedule schedule_data group_name day_name week_type
    ∧ ∀ p ∈ get_day_schedule schedule_data group_name day_name week_type,
        p.is_replacement = some false := by
  constructor
  · rfl
  · intro p hp
    unfold get_day_schedule at hp
    rcases hmatch : pyDictGet schedule_data group_name with _ | group_sched
    · rw [hmatch] at hp
      exact absurd hp (by simp)
    · rw [hmatch] at hp
      simp only [mem_pySorted, List.mem_map, List.mem_filter] at hp
      rcases hp with ⟨q, -, rfl⟩
      rfl

theorem claim_C3_witness :
    apply_replacements_to_schedule (get_day_schedule ex_sched "G1" "Понедельник" true)
        [] "G1" false
      = get_day_schedule ex_sched "G1" "Понедельник" true
    ∧ (process_day_pair ex_raw_pair).is_replacement = some false :=
  ⟨(claim_C3 ex_sched "G1" "Понедельник" true "G1" false).1,
   (claim_C3 ex_sched "G1" "Понедельник" true "G1" false).2 (process_day_pair ex_raw_pair)
     (by decide)⟩

/-- Claim C5: the two precedence orders of `apply_replacements_to_schedule`.
(1) Index building (site.py:195-202): the dict maps each `(group, pairNum)`
key to the **last** row in iteration order that names it (`reverse.find?`),
since later insertions overwrite earlier ones.  (2) Lookup (site.py:208-221):
for a base pair, the row applied is the one of the **first** candidate
group (in candidate-list order) that has an index entry (`findSome?`);
after the first hit the loop `break`s, so the remaining candidates are
ignored. -/
theorem claim_C5 :
    (∀ (rows : List Replacement) (g n : String),
        pyDictGet (build_replacements_dict rows) (g, n)
          = rows.reverse.find? (fun r => row_names_key r g n))
    ∧ (∀ (d : List ((String × String) × Replacement)) (p : Pair) (gs : List String),
        lookup_and_apply d p gs
          = match gs.findSome? (fun g => pyDictGet d (g, pairNumStr p)) with
            | some r => apply_replacement_hit p r
            | none => p) :=
  ⟨build_dict_lookup, lookup_and_apply_eq_findSome⟩

/-- Claim C6: joint-group lookup.  For a group entity whose name is
`A ++ "/" ++ B` (with `A`, `B` slash-free), the candidate tokens are the
stripped halves `[A.strip(), B.strip()]` (site.py:206), and a replacement
row indexed under the second token `B` with the pair's number is applied
to the lesson when the first token has no entry. -/
theorem claim_C6 (base : List Pair) (rows : List Replacement) (A B : String)
    (i : Nat) (p : Pair) (r : Replacement)
    (hrows : rows ≠ [])
    (hA : ∀ c ∈ A.data, c ≠ '/') (hB : ∀ c ∈ B.data, c ≠ '/')
    (hp : base[i]? = some p)
    (hmissA : pyDictGet (build_replacements_dict rows) (pyStrip A, pairNumStr p) = none)
    (hhitB : pyDictGet (build_replacements_dict rows) (pyStrip B, pairNumStr p) = some r) :
    user_groups_of (A ++ "/" ++ B) false p = [pyStrip A, pyStrip B]
    ∧ (apply_replacements_to_schedule base rows (A ++ "/" ++ B) false)[i]?
        = some (apply_replacement_hit p r)
    ∧ (apply_replacement_hit p r).is_replacement = some true := by
  have hug : user_groups_of (A ++ "/" ++ B) false p = [pyStrip A, pyStrip B] := by
    unfold user_groups_of
    rw [if_pos (by rfl), pySplitSlash_pair A B hA hB]
    rfl
  refine ⟨hug, ?_, rfl⟩
  rw [apply_replacements_getElem base rows (A ++ "/" ++ B) false i p hrows hp, hug,
    lookup_and_apply_eq_findSome]
  rw [List.findSome?_cons, hmissA, List.findSome?_cons, hhitB]

/-- Claim C1 counterexample: at a concrete cancellation match, the merged
pair produced by `apply_replacements_to_schedule` has `is_cancellation =
true` but its `lesson`/`classroom` fields hold the *replacement row's*
values (the teacher-stripped replacement text and the replacement
classroom, site.py:216-217), not the original pre-replacement values —
those survive only in `old_lesson`/`old_classroom`.  This refutes the
claim as stated. -/
theorem claim_C1_counterexample :
    apply_replacements_to_schedule [c1_base_pair] [c1_cancel_row] "G1" false
      = [{ c1_base_pair with
           lesson := "❌  Физика",
           classroom := some "204",
           teacher := some "Отмена/Перенос",
           is_replacement := some true,
           is_cancellation := some true }]
    ∧ ("❌  Физика" : String) ≠ c1_base_pair.lesson
    ∧ (some "204" : Option String) ≠ c1_base_pair.classroom :=
  ⟨by decide, by decide, by decide⟩

/-- Claim C1 (amended): for a base lesson matched by a replacement row
whose replacement-lesson text contains the cancellation marker, the merged
pair has `isCancellation = true` and `isReplacement = true`; its
`lesson`/`classroom` fields hold the replacement row's values, while the
original (pre-replacement) lesson and classroom are preserved unchanged in
`old_lesson`/`old_classroom`; and the KWGT formatter's substitution table
(site.py:302-306) maps `%LESSON%`/`%ROOM%` to exactly those preserved
original values, so the formatter displays the originals, not the
replacement text. -/
theorem claim_C1_amended (base : List Pair) (rows : List Replacement)
    (entity_name : String) (is_teacher : Bool) (i : Nat) (p : Pair) (r : Replacement)
    (hrows : rows ≠ []) (hp : base[i]? = some p)
    (hfirst : (user_groups_of entity_name is_teacher p).findSome?
        (fun g => pyDictGet (build_replacements_dict rows) (g, pairNumStr p)) = some r)
    (hmark : pyIn CANCEL_MARKER r.repl_lesson = true) :
    ∃ q, (apply_replacements_to_schedule base rows entity_name is_teacher)[i]? = some q
      ∧ q.is_cancellation = some true ∧ q.is_replacement = some true
      ∧ q.old_lesson = p.old_lesson ∧ q.old_classroom = p.old_classroom
      ∧ q.lesson = (get_teacher_from_lesson r.repl_lesson).1
      ∧ q.classroom = some r.classroom
      ∧ pyDictGet (kwgt_final_reps q) "%LESSON%" = some (p.old_lesson.getD "???")
      ∧ pyDictGet (kwgt_final_reps q) "%ROOM%" = some (p.old_classroom.getD "Н/У") := by
  have hcanc : (apply_replacement_hit p r).is_cancellation = some true := by
    simp [apply_replacement_hit, hmark]
  have hgetd : (apply_replacement_hit p r).is_cancellation.getD false = true := by
    rw [hcanc]
    rfl
  refine ⟨apply_replacement_hit p r, ?_, hcanc, rfl, rfl, rfl, rfl, rfl, ?_, ?_⟩
  · rw [apply_replacements_getElem base rows entity_name is_teacher i p hrows hp,
      lookup_and_apply_eq_findSome, hfirst]
  · simp only [kwgt_final_reps, hgetd, if_true]
    rfl
  · simp only [kwgt_final_reps, hgetd, if_true]
    rfl

theorem claim_C1_amended_witness :
    ∃ q, (apply_replacements_to_schedule [c1_base_pair] [c1_cancel_row] "G1" false)[0]?
        = some q
      ∧ q.is_cancellation = some true ∧ q.is_replacement = some true
      ∧ q.old_lesson = c1_base_pair.old_lesson
      ∧ q.old_classroom = c1_base_pair.old_classroom
      ∧ q.lesson = (get_teacher_from_lesson c1_cancel_row.repl_lesson).1
      ∧ q.classroom = some c1_cancel_row.classroom
      ∧ pyDictGet (kwgt_final_reps q) "%LESSON%" = some (c1_base_pair.old_lesson.getD "???")
      ∧ pyDictGet (kwgt_final_reps q) "%ROOM%" = some (c1_base_pair.old_classroom.getD "Н/У") :=
  claim_C1_amended [c1_base_pair] [c1_cancel_row] "G1" false 0 c1_base_pair c1_cancel_row
    (by decide) rfl (by decide) (by decide)

/-! ### Fetch lemmas and claims C2, C7, C8 -/

theorem fetch_cached (cache : Cache) (tc tu : Int) (r0 r1 : FetchResult)
    (h : tc - cache.last_fetch_time < cooldown_delta) :
    fetch_replacements_data cache false tc tu r0 r1 = (cache, false) := by
  unfold fetch_replacements_data
  rw [if_pos ⟨rfl, h⟩]

theorem fetch_refresh (cache : Cache) (force : Bool) (tc tu : Int) (r0 r1 : FetchResult)
    (h : ¬ (force = false ∧ tc - cache.last_fetch_time < cooldown_delta)) :
    fetch_replacements_data cache force tc tu r0 r1
      = ({ replacements :=
             (process_source (process_source initRefreshAcc 0 r0) 1 r1).all_replacements_data,
           date_info := (process_source (process_source initRefreshAcc 0 r0) 1 r1).primary_date_info,
           date_object := (process_source (process_source initRefreshAcc 0 r0) 1 r1).primary_date_object,
           last_fetch_time := tu,
           errors := (process_source (process_source initRefreshAcc 0 r0) 1 r1).fetch_errors },
         true) := by
  unfold fetch_replacements_data
  rw [if_neg h]

theorem extract_fold (table : List (List String)) (acc : List Replacement) :
    table.foldl (fun acc row =>
        if row.length == REPLACEMENTS_HEADERS.length then acc ++ [mk_row row] else acc) acc
      = acc ++ (table.filter (fun row => row.length == 6)).map mk_row := by
  induction table generalizing acc with
  | nil => simp
  | cons row t ih =>
    have h6 : REPLACEMENTS_HEADERS.length = 6 := rfl
    rw [List.foldl_cons, List.filter_cons]
    rw [h6] at ih ⊢
    by_cases h : (row.length == 6) = true
    · rw [if_pos h, ih, if_pos h]
      simp
    · rw [if_neg h, ih, if_neg h]

theorem extract_table_rows_eq (table : List (List String)) :
    extract_table_rows table = (table.filter (fun row => row.length == 6)).map mk_row := by
  unfold extract_table_rows
  rw [extract_fold]
  rfl

/-- Claim C2: a second `force_update=False` call arriving less than the
30-minute cooldown after the first call's fetch completed (i.e. after the
`last_fetch_time` the first call stored, site.py:96-98) performs no
upstream fetch and returns the cached snapshot unchanged, so across the
two calls exactly the first call's single upstream fetch is performed. -/
theorem claim_C2 (c0 : Cache) (force1 : Bool) (t1c t1u t2c t2u : Int)
    (r0 r1 r0' r1' : FetchResult)
    (hfetched : (fetch_replacements_data c0 force1 t1c t1u r0 r1).2 = true)
    (hcool : t2c - (fetch_replacements_data c0 force1 t1c t1u r0 r1).1.last_fetch_time
        < cooldown_delta) :
    fetch_replacements_data (fetch_replacements_data c0 force1 t1c t1u r0 r1).1
        false t2c t2u r0' r1'
      = ((fetch_replacements_data c0 force1 t1c t1u r0 r1).1, false)
    ∧ (fetch_replacements_data c0 force1 t1c t1u r0 r1).2.toNat
        + (fetch_replacements_data (fetch_replacements_data c0 force1 t1c t1u r0 r1).1
            false t2c t2u r0' r1').2.toNat = 1 := by
  have h2 := fetch_cached (fetch_replacements_data c0 force1 t1c t1u r0 r1).1
    t2c t2u r0' r1' hcool
  refine ⟨h2, ?_⟩
  rw [h2, hfetched]
  rfl

theorem claim_C2_witness :
    fetch_replacements_data
        (fetch_replacements_data ⟨[], "Неизвестно", none, 0, []⟩ true 0 10
          (.err "boom") (.err "boom")).1 false 100 110 (.err "x") (.err "y")
      = ((fetch_replacements_data ⟨[], "Неизвестно", none, 0, []⟩ true 0 10
          (.err "boom") (.err "boom")).1, false)
    ∧ (fetch_replacements_data ⟨[], "Неизвестно", none, 0, []⟩ true 0 10
        (.err "boom") (.err "boom")).2.toNat
      + (fetch_replacements_data
          (fetch_replacements_data ⟨[], "Неизвестно", none, 0, []⟩ true 0 10
            (.err "boom") (.err "boom")).1 false 100 110 (.err "x") (.err "y")).2.toNat = 1 :=
  claim_C2 ⟨[], "Неизвестно", none, 0, []⟩ true 0 10 100 110
    (.err "boom") (.err "boom") (.err "x") (.err "y") (by decide) (by decide)

/-- Claim C7: a refresh in which both upstream sources fail (both requests
raise) still completes and yields a snapshot whose row list is empty and
whose `errors` list holds exactly one recorded message per failed source
(site.py:132-139); the embedding is a total function, matching the
source's per-source `try/except` which lets no exception propagate. -/
theorem claim_C7 (cache : Cache) (tc tu : Int) (e1 e2 : String) :
    (fetch_replacements_data cache true tc tu (.err e1) (.err e2)).1.replacements = []
    ∧ (fetch_replacements_data cache true tc tu (.err e1) (.err e2)).1.errors
        = ["❌ Ошибка при запросе к 1-ая смена: " ++ e1,
           "❌ Ошибка при запросе к 2-ая смена: " ++ e2]
    ∧ (fetch_replacements_data cache true tc tu (.err e1) (.err e2)).1.errors.length = 2 := by
  rw [fetch_refresh cache true tc tu (.err e1) (.err e2) (by simp)]
  refine ⟨rfl, ?_, ?_⟩ <;> rfl

/-- Claim C8: during a refresh every scraped table row whose cell count
differs from the expected 6 columns is silently dropped — the resulting
row list is exactly the 6-cell rows of both sources in order, and no entry
is added to `errors` for mismatched rows (site.py:126-131). -/
theorem claim_C8 (cache : Cache) (tc tu : Int) (d0 d1 : Option String)
    (t0 t1 : List (List String)) :
    (fetch_replacements_data cache true tc tu (.ok ⟨d0, some t0⟩) (.ok ⟨d1, some t1⟩)).1.replacements
      = (t0.filter (fun row => row.length == 6)).map mk_row
        ++ (t1.filter (fun row => row.length == 6)).map mk_row
    ∧ (fetch_replacements_data cache true tc tu (.ok ⟨d0, some t0⟩) (.ok ⟨d1, some t1⟩)).1.errors
      = [] := by
  rw [fetch_refresh cache true tc tu (.ok ⟨d0, some t0⟩) (.ok ⟨d1, some t1⟩) (by simp)]
  constructor
  · show (process_source (process_source initRefreshAcc 0 (.ok ⟨d0, some t0⟩)) 1
      (.ok ⟨d1, some t1⟩)).all_replacements_data = _
    simp only [process_source, initRefreshAcc]
    rw [extract_table_rows_eq, extract_table_rows_eq]
    simp
  · rfl

/-! ### Claims C9 and C10 -/

/-- Claim C9: on a memo-cache miss, `get_merged_daily_schedule` applies
the snapshot's replacement rows only when the snapshot's parsed effective
date equals the target date (site.py:240); otherwise the merge runs with
an empty replacement list, and since an empty replacement list makes the
merge the identity (site.py:193), the base schedule passes through with
no replacements applied. -/
theorem claim_C9 (mcache : List (String × List Pair))
    (schedule teachers_schedule : ScheduleData) (snapshot : Cache) (target_date : Date)
    (entity_name : String) (is_teacher : Bool) (today : Date)
    (hmiss : pyDictGet mcache (merged_cache_key target_date is_teacher entity_name) = none) :
    ((snapshot.date_object = some target_date →
        (get_merged_daily_schedule mcache schedule teachers_schedule snapshot target_date
            entity_name is_teacher today).1
          = apply_replacements_to_schedule
              (get_day_schedule (if is_teacher then teachers_schedule else schedule)
                entity_name (DAY_NAMES.getD (date_weekday target_date).toNat "")
                (get_week_type today))
              snapshot.replacements entity_name is_teacher)
      ∧ (snapshot.date_object ≠ some target_date →
          (get_merged_daily_schedule mcache schedule teachers_schedule snapshot target_date
              entity_name is_teacher today).1
            = get_day_schedule (if is_teacher then teachers_schedule else schedule)
                entity_name (DAY_NAMES.getD (date_weekday target_date).toNat "")
                (get_week_type today))) := by
  constructor
  · intro hd
    simp only [get_merged_daily_schedule, hmiss, hd, if_true, reduceIte]
  · intro hd
    simp only [get_merged_daily_schedule, hmiss, if_neg hd]
    rfl

theorem claim_C9_witness :
    ((ex_snapshot.date_object = some ⟨2025, 11, 5⟩ →
        (get_merged_daily_schedule [] ex_sched [] ex_snapshot ⟨2025, 11, 5⟩
            "G1" false ⟨2025, 11, 5⟩).1
          = apply_replacements_to_schedule
              (get_day_schedule (if false then [] else ex_sched)
                "G1" (DAY_NAMES.getD (date_weekday ⟨2025, 11, 5⟩).toNat "")
                (get_week_type ⟨2025, 11, 5⟩))
              ex_snapshot.replacements "G1" false)
      ∧ (ex_snapshot.date_object ≠ some ⟨2025, 11, 5⟩ →
          (get_merged_daily_schedule [] ex_sched [] ex_snapshot ⟨2025, 11, 5⟩
              "G1" false ⟨2025, 11, 5⟩).1
            = get_day_schedule (if false then [] else ex_sched)
                "G1" (DAY_NAMES.getD (date_weekday ⟨2025, 11, 5⟩).toNat "")
                (get_week_type ⟨2025, 11, 5⟩))) :=
  claim_C9 [] ex_sched [] ex_snapshot ⟨2025, 11, 5⟩ "G1" false ⟨2025, 11, 5⟩ rfl

/-- Claim C10 (refuting trace): the source has no lock and no shared
in-flight future around site.py:94-142; between the cooldown check and the
cache update the coroutine awaits the HTTP requests, so a second caller
can run its own check.  Starting from a stale cache, the interleaving
`check(A); check(B); refresh(A); refresh(B)` is reachable: B passes the
cooldown check while A's refresh is still in flight (`race_s1.taskA =
fetching`), and the generation ends with **two** upstream fetch pairs,
contradicting the claimed at-most-one (single-flight) behaviour. -/
theorem claim_C10 :
    stepCheck .A 1000000 race_s0 = some race_s1
    ∧ race_s1.taskA = TaskPhase.fetching
    ∧ stepCheck .B 1000001 race_s1 = some race_s2
    ∧ stepFetch .A 1000002 race_s2 = some race_s3
    ∧ stepFetch .B 1000003 race_s3 = some race_s4
    ∧ race_s4.upstream_fetch_pairs = 2 := by
  decide

/-! ### Calendar lemmas and claim C4 -/

theorem days_before_month_one (y : Int) : days_before_month y 1 = 0 := by
  norm_num [days_before_month]

theorem ymd2ord_jan4 (y : Int) : ymd2ord y 1 4 = ymd2ord y 1 1 + 3 := by
  norm_num [ymd2ord, days_before_month]
  ring

/-- CPython's week-1-Monday computation agrees with the spec's
"Monday of the week containing January 4" formulation. -/
theorem isoweek1monday_eq_spec (y : Int) : isoweek1monday y = isoWeek1MondaySpec y := by
  simp only [isoweek1monday, isoWeek1MondaySpec]
  rw [ymd2ord_jan4]
  split_ifs <;> omega

theorem isoweek1monday_bounds (y : Int) :
    ymd2ord y 1 1 - 3 ≤ isoweek1monday y ∧ isoweek1monday y ≤ ymd2ord y 1 1 + 3 := by
  simp only [isoweek1monday]
  split_ifs <;> omega

theorem isoweek1monday_mod (y : Int) : isoweek1monday y % 7 = 1 := by
  simp only [isoweek1monday]
  split_ifs <;> omega

theorem days_before_year_delta (y : Int) :
    days_before_year y + 365 ≤ days_before_year (y + 1)
    ∧ days_before_year (y + 1) ≤ days_before_year y + 366 := by
  simp only [days_before_year]
  omega

theorem days_before_year_leap (y : Int) (h : isLeap y = true) :
    days_before_year (y + 1) = days_before_year y + 366 := by
  simp only [isLeap, Bool.and_eq_true, beq_iff_eq, Bool.or_eq_true, bne_iff_ne] at h
  simp only [days_before_year]
  omega

theorem month_bound (y m : Int) (h1 : 1 ≤ m) (h2 : m ≤ 12) :
    0 ≤ days_before_month y m
    ∧ days_before_month y m + days_in_month y m ≤ (if isLeap y then 366 else 365) := by
  unfold days_before_month days_in_month
  cases hL : isLeap y <;> interval_cases m <;> norm_num

theorem date_ord_bounds (dt : Date) (hv : isValidDate dt) :
    ymd2ord dt.year 1 1 ≤ date_ord dt ∧ date_ord dt < ymd2ord (dt.year + 1) 1 1 := by
  obtain ⟨hy1, hy2, hm1, hm2, hd1, hd2⟩ := hv
  have hm := month_bound dt.year dt.month hm1 hm2
  have h1 := days_before_month_one dt.year
  have h1' := days_before_month_one (dt.year + 1)
  have hd := days_before_year_delta dt.year
  simp only [date_ord, ymd2ord] at *
  cases hL : isLeap dt.year
  · rw [hL] at hm
    simp only [if_false, Bool.false_eq_true] at hm
    omega
  · rw [hL] at hm
    simp only [if_true] at hm
    have hlp := days_before_year_leap dt.year hL
    omega

theorem jan1_eq (y : Int) : ymd2ord y 1 1 = days_before_year y + 1 := by
  simp [ymd2ord, days_before_month_one]

/-- The week component of CPython's `isocalendar` equals the spec's
ISO-8601 week number on every valid date. -/
theorem isocalendar_week_eq (dt : Date) (hv : isValidDate dt) :
    (date_isocalendar dt).2.1 = isoWeekNumber dt := by
  have e1 := isoweek1monday_eq_spec (dt.year - 1)
  have e2 := isoweek1monday_eq_spec dt.year
  have e3 := isoweek1monday_eq_spec (dt.year + 1)
  have b2 := isoweek1monday_bounds dt.year
  have b3 := isoweek1monday_bounds (dt.year + 1)
  have m2 := isoweek1monday_mod dt.year
  have m3 := isoweek1monday_mod (dt.year + 1)
  have hob := date_ord_bounds dt hv
  have hdelta := days_before_year_delta dt.year
  have hj2 := jan1_eq dt.year
  have hj3 := jan1_eq (dt.year + 1)
  simp only [date_isocalendar, isoWeekNumber]
  rw [← e1, ← e2, ← e3]
  split_ifs <;> dsimp only <;> omega

/-- Claim C4: `get_week_type` (the week-parity classifier, site.py:145-147)
is deterministic — it is a pure function of the date, so equal dates give
equal results — and for every valid date it returns exactly
`isoWeekNumber(d) mod 2 == 0`, where `isoWeekNumber` is the ISO-8601 week
number written independently from the spec's wording; `true` means the
numerator week. -/
theorem claim_C4 (d : Date) (hv : isValidDate d) :
    (∀ d' : Date, d' = d → get_week_type d' = get_week_type d)
    ∧ get_week_type d = (isoWeekNumber d % 2 == 0) := by
  refine ⟨fun d' h => by rw [h], ?_⟩
  unfold get_week_type
  rw [isocalendar_week_eq d hv]

theorem claim_C4_witness :
    (∀ d' : Date, d' = ⟨2025, 10, 12⟩ → get_week_type d' = get_week_type ⟨2025, 10, 12⟩)
    ∧ get_week_type ⟨2025, 10, 12⟩ = (isoWeekNumber ⟨2025, 10, 12⟩ % 2 == 0) :=
  claim_C4 ⟨2025, 10, 12⟩ (by decide)

theorem claim_C6_witness :
    user_groups_of ("A" ++ "/" ++ "G1") false c1_base_pair = [pyStrip "A", pyStrip "G1"]
    ∧ (apply_replacements_to_schedule [c1_base_pair] [c1_cancel_row]
        ("A" ++ "/" ++ "G1") false)[0]?
        = some (apply_replacement_hit c1_base_pair c1_cancel_row)
    ∧ (apply_replacement_hit c1_base_pair c1_cancel_row).is_replacement = some true :=
  claim_C6 [c1_base_pair] [c1_cancel_row] "A" "G1" 0 c1_base_pair c1_cancel_row
    (by decide) (by decide) (by decide) rfl (by decide) (by decide)
